import Mathlib

/-!
Shallow embedding of the Legal Document Demystifier app (src/app.py).

The app extracts text from uploaded PDF/image files, stores it with three
derived results (summary, risk analysis, chat transcript) in a per-session
state, and renders four tabs. We model the Python string operations used by
the code (str.join, str.strip, str.split, str.replace, the `in` substring
test) as structurally recursive functions on lists of characters, and every
user-visible handler as a pure function on an explicit session state, with
external services (PDF parsing, OCR, the generative model) supplied as
oracles whose outcomes are parameters.
-/

namespace Demystifier

/-- Python `str.isspace`-style ASCII whitespace, the set `str.strip()` removes. -/
def pyIsSpace (c : Char) : Bool :=
  c = ' ' || c = '\t' || c = '\n' || c = '\r' || c = '\x0b' || c = '\x0c'

/-- Python `str.strip()` on a list of characters. -/
def pyStripL (s : List Char) : List Char :=
  ((s.dropWhile pyIsSpace).reverse.dropWhile pyIsSpace).reverse

/-- Python `str.strip()`. -/
def pyStrip (s : String) : String :=
  ⟨pyStripL s.data⟩

/-- Python `sep.join(xs)`: elements interleaved with the separator. -/
def pyJoin (sep : String) : List String → String
  | [] => ""
  | [x] => x
  | x :: y :: xs => x ++ sep ++ pyJoin sep (y :: xs)

/-- Python `pat in s` (substring containment) on lists of characters. -/
def containsL : List Char → List Char → Bool
  | [], pat => pat.isPrefixOf []
  | c :: t, pat => pat.isPrefixOf (c :: t) || containsL t pat

/-- Python `pat in s` (substring containment). -/
def pyContains (s pat : String) : Bool :=
  containsL s.data pat.data

/-- Worker for Python `str.replace` with explicit fuel so that it is
structurally recursive (the fuel never runs out when it starts at the
length of the scanned string and the pattern is non-empty). -/
def replaceFuel (repl : List Char) (p : Char) (ps : List Char) :
    Nat → List Char → List Char
  | _, [] => []
  | 0, s => s
  | fuel + 1, c :: t =>
    if (p :: ps).isPrefixOf (c :: t) then
      repl ++ replaceFuel repl p ps fuel (t.drop ps.length)
    else
      c :: replaceFuel repl p ps fuel t

/-- Python `s.replace(pat, repl)` on lists of characters: every occurrence,
left to right, non-overlapping. The empty pattern is never used by the app;
we return the string unchanged for it. -/
def replaceL (s pat repl : List Char) : List Char :=
  match pat with
  | [] => s
  | p :: ps => replaceFuel repl p ps s.length s

/-- Python `s.replace(pat, repl)`. -/
def pyReplace (s pat repl : String) : String :=
  ⟨replaceL s.data pat.data repl.data⟩

/-- Python `s.split(sep)` for a single-character separator: keeps empty
pieces, `"".split(c) = [""]`. -/
def splitOnCharL (sep : Char) : List Char → List (List Char)
  | [] => [[]]
  | c :: t =>
    if c = sep then
      [] :: splitOnCharL sep t
    else
      match splitOnCharL sep t with
      | [] => [[c]]
      | h :: r => (c :: h) :: r

/-- Python `s.split(c)` for one-character `c`. -/
def pySplitChar (s : String) (sep : Char) : List String :=
  (splitOnCharL sep s.data).map (fun l => ⟨l⟩)

/-! ### Text Extractor (src/app.py lines 59-85) -/

/-- Outcome of `page.extract_text()` for one PDF page: it returns a string,
returns `None` (modelled as `none`, the code appends `""` via `or ""`), or
raises an exception while being read. -/
inductive PageOutcome where
  | text (s : Option String)
  | exn
  deriving DecidableEq, Repr

/-- A PDF upload as the PDF library presents it: either `PdfReader` itself
raises (unreadable file), or it yields a list of pages with their
per-page extraction outcomes. -/
inductive PdfFile where
  | unreadable
  | pages (ps : List PageOutcome)
  deriving DecidableEq, Repr

/-- Outcome of the Document AI `process_document` call for one image:
the service returns the document text, or the call raises. -/
inductive OcrOutcome where
  | ok (text : String)
  | exn
  deriving DecidableEq, Repr

/-- An uploaded file, classified the way the code does on `file.type`:
`application/pdf` goes to the PDF path, everything else to the image path. -/
inductive UploadedFile where
  | pdf (f : PdfFile)
  | image (r : OcrOutcome)
  deriving DecidableEq, Repr

/-- The page loop of `extract_text_from_pdf`: `text += page.extract_text() or ""`
page by page; an exception aborts the loop (and is caught by the handler,
which reports an error and still returns the text accumulated so far).
Returns the accumulated text and whether an error was reported. -/
def pdfPagesLoop : String → List PageOutcome → String × Bool
  | acc, [] => (acc, false)
  | acc, PageOutcome.exn :: _ => (acc, true)
  | acc, PageOutcome.text s :: rest => pdfPagesLoop (acc ++ s.getD "") rest

/-- `extract_text_from_pdf` (src/app.py lines 59-68): returns the extracted
text and whether `st.error` was called. On any exception the accumulated
`text` so far is still returned. -/
def extract_text_from_pdf : PdfFile → String × Bool
  | PdfFile.unreadable => ("", true)
  | PdfFile.pages ps => pdfPagesLoop "" ps

/-- `extract_text_from_image` (src/app.py lines 70-85): returns the service
text on success; on any exception reports an error and returns `""`. -/
def extract_text_from_image : OcrOutcome → String × Bool
  | OcrOutcome.ok t => (t, false)
  | OcrOutcome.exn => ("", true)

/-- Per-file dispatch of the analyze loop (src/app.py lines 116-120):
PDF files go to `extract_text_from_pdf`, all others to
`extract_text_from_image`. -/
def extractFile : UploadedFile → String × Bool
  | UploadedFile.pdf f => extract_text_from_pdf f
  | UploadedFile.image r => extract_text_from_image r

/-! ### Session state and the analyze handler (src/app.py lines 93-134) -/

/-- One chat transcript entry `{"role": ..., "content": ...}`. -/
structure ChatMessage where
  role : String
  content : String
  deriving DecidableEq, Repr

/-- The four `st.session_state` fields the app uses. -/
structure SessionState where
  text_content : String
  summary : String
  risk_analysis : String
  messages : List ChatMessage
  deriving DecidableEq, Repr

/-- Initial session state (src/app.py lines 93-100). -/
def initState : SessionState :=
  ⟨"", "", "", []⟩

/-- Result of one click of the Analyze Document button: the session state
afterwards, how many files the extraction loop processed, and which of the
three user messages was shown (`st.warning` for no file, `st.error` for no
extracted text, `st.success` otherwise). -/
structure AnalyzeResult where
  state : SessionState
  filesProcessed : Nat
  warned : Bool
  errored : Bool
  succeeded : Bool
  deriving DecidableEq, Repr

/-- The Analyze Document button handler (src/app.py lines 111-134):
with no uploaded file, warn and change nothing; otherwise extract every
file, join with `"\n\n".join`, overwrite `text_content`, clear the three
derived fields, and report an error iff the joined text strips to empty. -/
def analyzeDocument (s : SessionState) (uploaded_files : List UploadedFile) :
    AnalyzeResult :=
  if uploaded_files.isEmpty then
    ⟨s, 0, true, false, false⟩
  else
    let all_texts := uploaded_files.map (fun f => (extractFile f).1)
    let text_content := pyJoin "\n\n" all_texts
    let s' : SessionState := ⟨text_content, "", "", []⟩
    if (pyStrip text_content).data.isEmpty then
      ⟨s', uploaded_files.length, false, true, false⟩
    else
      ⟨s', uploaded_files.length, false, false, true⟩

/-- The gate in front of the four tabs (src/app.py line 137):
`if st.session_state.text_content:` — Python truthiness of a string is
plain non-emptiness, with no stripping. -/
def tabsOffered (s : SessionState) : Bool :=
  !s.text_content.data.isEmpty

/-! ### Summary and Risk Analysis tabs (src/app.py lines 141-178)

Apostrophes in the prompt texts are written with the `\x27` escape. -/

/-- The summary prompt f-string (src/app.py lines 145-149), verbatim:
a triple-quoted template with 16-space indentation, the document text
interpolated after `DOCUMENT TEXT: `. -/
def summary_prompt (text_content : String) : String :=
  "\n                You are a legal expert. Analyze the provided document text and provide a structured summary. Use simple language.\n                Include: Document Type, Main Purpose, Parties Involved, Key Dates, Financial Aspects, Main Rights & Obligations, and Termination Conditions.\n                DOCUMENT TEXT: "
    ++ text_content ++ "\n                "

/-- The risk prompt f-string (src/app.py lines 158-164), verbatim. -/
def risk_prompt (text_content : String) : String :=
  "\n                From the legal text, identify 3-5 key clauses, potential risks, or points of negotiation.\n                For each point, provide a simple explanation and classify its severity as \x27Low\x27, \x27Medium\x27, or \x27High\x27.\n                Format each point on a new line like this:\n                Severity: [Severity Level] - [Explanation of the clause/risk]\n                LEGAL TEXT: "
    ++ text_content ++ "\n                "

/-- Result of rendering a memoized tab once: the session state afterwards and
the list of prompts sent to `model.generate_content` during the render. -/
structure TabOutcome where
  state : SessionState
  prompts : List String
  deriving DecidableEq, Repr

/-- One render of the Summary tab (src/app.py lines 141-152):
`if not st.session_state.summary:` compute and cache, else reuse.
`generate` is the generative model, mapping a prompt to `response.text`. -/
def renderSummaryTab (s : SessionState) (generate : String → String) :
    TabOutcome :=
  if s.summary.data.isEmpty then
    let p := summary_prompt s.text_content
    ⟨{ s with summary := generate p }, [p]⟩
  else
    ⟨s, []⟩

/-- The memoization part of one render of the Risk Analysis tab
(src/app.py lines 154-166). -/
def renderRiskTab (s : SessionState) (generate : String → String) :
    TabOutcome :=
  if s.risk_analysis.data.isEmpty then
    let p := risk_prompt s.text_content
    ⟨{ s with risk_analysis := generate p }, [p]⟩
  else
    ⟨s, []⟩

/-! ### Risk line renderer (src/app.py lines 168-178) -/

/-- One displayed line of the Risk Analysis tab, tagged with the Streamlit
widget used: `st.error` (high), `st.warning` (medium), `st.info` (low),
`st.write` (plain). -/
inductive RiskLine where
  | high (s : String)
  | medium (s : String)
  | low (s : String)
  | plain (s : String)
  deriving DecidableEq, Repr

/-- The body of the risk rendering loop for one raw line: strip, skip if
empty, classify by substring containment in order High, Medium, Low, and
rewrite the matched marker with Python `str.replace`; unmatched lines are
written verbatim. -/
def renderRiskLine (raw : String) : Option RiskLine :=
  let line := pyStrip raw
  if line.data.isEmpty then
    none
  else if pyContains line "Severity: High" then
    some (RiskLine.high (pyReplace line "Severity: High -" "**High Risk:**"))
  else if pyContains line "Severity: Medium" then
    some (RiskLine.medium (pyReplace line "Severity: Medium -" "**Medium Risk:**"))
  else if pyContains line "Severity: Low" then
    some (RiskLine.low (pyReplace line "Severity: Low -" "**Low Risk:**"))
  else
    some (RiskLine.plain line)

/-- The risk rendering loop (src/app.py lines 168-178):
`for line in st.session_state.risk_analysis.split('\n')`, skipping lines
that strip to empty, in original order. -/
def renderRiskLines (risk_analysis : String) : List RiskLine :=
  (pySplitChar risk_analysis '\n').filterMap renderRiskLine

/-! ### Chat tab (src/app.py lines 209-220) -/

/-- Outcome of one `model.generate_content` call: a completion text, or an
exception (network/auth/quota), which the chat handler does not catch. -/
inductive GenOutcome where
  | ok (text : String)
  | exn
  deriving DecidableEq, Repr

/-- The Q&A prompt f-string (src/app.py line 215), verbatim. -/
def qa_prompt (text_content question : String) : String :=
  "Answer the user\x27s question based ONLY on the following document. If the answer isn\x27t there, say so.\nDOCUMENT: "
    ++ text_content ++ "\nQUESTION: " ++ question

/-- Result of one submitted chat message: the session state afterwards, the
prompts sent to the model, and whether the generate call raised (the
exception escapes the handler). -/
structure ChatOutcome where
  state : SessionState
  prompts : List String
  raised : Bool
  deriving DecidableEq, Repr

/-- The chat input handler (src/app.py lines 210-220): append the
`(user, question)` entry, issue one generate call on `qa_prompt`, and on
success append the `(assistant, reply)` entry. An exception from the call
leaves the transcript with the user entry already appended. -/
def chatStep (s : SessionState) (question : String)
    (generate : String → GenOutcome) : ChatOutcome :=
  let s1 : SessionState :=
    { s with messages := s.messages ++ [⟨"user", question⟩] }
  let p := qa_prompt s.text_content question
  match generate p with
  | GenOutcome.ok reply =>
      ⟨{ s1 with messages := s1.messages ++ [⟨"assistant", reply⟩] }, [p], false⟩
  | GenOutcome.exn => ⟨s1, [p], true⟩

/-- A sequence of successfully answered chat questions: `chatStep` iterated
with a total (never-raising) model. -/
def chatRun (generate : String → String) :
    SessionState → List String → SessionState
  | s, [] => s
  | s, q :: qs =>
      chatRun generate
        (chatStep s q (fun p => GenOutcome.ok (generate p))).state qs

/-! ### Explain Clause tab (src/app.py lines 222-234) -/

/-- The explain prompt f-string (src/app.py line 229), verbatim: the clause
is interpolated between double quotes. -/
def explain_prompt (clause : String) : String :=
  "Explain the following legal clause in simple terms for a non-lawyer.\nCLAUSE: \"" ++ clause ++ "\""

/-- Result of one click of the Explain This! button: the session state
afterwards, the prompts sent to the model, the displayed explanation, and
whether the empty-clause warning was shown. -/
structure ExplainOutcome where
  state : SessionState
  prompts : List String
  shown : Option String
  warned : Bool
  deriving DecidableEq, Repr

/-- The Explain This! button handler (src/app.py lines 226-234): with a
non-empty clause, one fresh generate call whose result is displayed but
never stored in the session state; with an empty clause, a warning. -/
def explainClick (s : SessionState) (clause_to_explain : String)
    (generate : String → String) : ExplainOutcome :=
  if clause_to_explain.data.isEmpty then
    ⟨s, [], none, true⟩
  else
    let p := explain_prompt clause_to_explain
    ⟨s, [p], some (generate p), false⟩

/-! ### Characterization definitions used by theorems -/

/-- Text a PDF contributes per the code path: the concatenation of the
per-page texts of the pages read before the first raising page (all pages
when none raises). -/
def pagesTextBeforeExn : List PageOutcome → String
  | [] => ""
  | PageOutcome.exn :: _ => ""
  | PageOutcome.text s :: rest => s.getD "" ++ pagesTextBeforeExn rest

/-- Whether reading the page list raises (so `st.error` is shown). -/
def pagesExn : List PageOutcome → Bool
  | [] => false
  | PageOutcome.exn :: _ => true
  | PageOutcome.text _ :: rest => pagesExn rest

/-- Formalisation of claim C1's wording: Document Text equals the
NON-EMPTY per-file extraction results joined by the blank-line separator,
empty per-file results contributing nothing. -/
def documentTextPerClaim (uploaded_files : List UploadedFile) : String :=
  pyJoin "\n\n"
    ((uploaded_files.map (fun f => (extractFile f).1)).filter
      (fun t => !t.data.isEmpty))

/-- Formalisation of claim C5's wording for the marker rewrite: strip the
literal `Severity: <Level> -` PREFIX, replacing it with the bolded label;
a line not starting with the marker is left as is. -/
def stripPrefixLabel (line pat repl : String) : String :=
  if pat.data.isPrefixOf line.data then
    repl ++ String.mk (line.data.drop pat.data.length)
  else
    line

/-- Formalisation of claim C5's wording for one line: classify by substring
match in priority order, then strip the marker prefix (rather than replace
every occurrence as the code does). -/
def renderRiskLineClaim (raw : String) : Option RiskLine :=
  let line := pyStrip raw
  if line.data.isEmpty then
    none
  else if pyContains line "Severity: High" then
    some (RiskLine.high (stripPrefixLabel line "Severity: High -" "**High Risk:**"))
  else if pyContains line "Severity: Medium" then
    some (RiskLine.medium (stripPrefixLabel line "Severity: Medium -" "**Medium Risk:**"))
  else if pyContains line "Severity: Low" then
    some (RiskLine.low (stripPrefixLabel line "Severity: Low -" "**Low Risk:**"))
  else
    some (RiskLine.plain line)

/-- Claim C5's renderer, over the whole Risk Analysis string. -/
def renderRiskLinesClaim (risk_analysis : String) : List RiskLine :=
  (pySplitChar risk_analysis '\n').filterMap renderRiskLineClaim

/-! ### Helper lemmas -/

theorem eq_empty_of_data_eq_nil {s : String} (h : s.data = []) : s = "" := by
  cases s
  simp_all

theorem data_ne_nil_of_ne_empty {s : String} (h : s ≠ "") : s.data ≠ [] :=
  fun hd => h (eq_empty_of_data_eq_nil hd)

theorem pyJoin_length_le (sep t : String) :
    ∀ l : List String, t ∈ l →
      t.data.length ≤ (pyJoin sep l).data.length
  | [], h => by cases h
  | [x], h => by
      rcases List.mem_singleton.mp h with rfl
      simp [pyJoin]
  | x :: y :: xs, h => by
      rcases List.mem_cons.mp h with rfl | h2
      · simp [pyJoin, String.data_append]
      · have ih := pyJoin_length_le sep t (y :: xs) h2
        simp only [pyJoin, String.data_append, List.length_append]
        omega

theorem pyJoin_ne_empty_of_mem (sep t : String) (l : List String)
    (ht : t ∈ l) (hne : t ≠ "") : pyJoin sep l ≠ "" := by
  intro h0
  have hlen := pyJoin_length_le sep t l ht
  rw [h0] at hlen
  have h2 : ("" : String).data.length = 0 := rfl
  have h3 : 0 < t.data.length :=
    List.length_pos.mpr (data_ne_nil_of_ne_empty hne)
  omega

theorem containsL_of_isPrefixOf (s pat : List Char)
    (h : pat.isPrefixOf s = true) : containsL s pat = true := by
  cases s with
  | nil => rw [containsL]; exact h
  | cons c t => rw [containsL, h]; simp

theorem containsL_append (x pat y : List Char) :
    containsL (x ++ pat ++ y) pat = true := by
  induction x with
  | nil =>
      simp only [List.nil_append]
      exact containsL_of_isPrefixOf (pat ++ y) pat
        (by simp [List.isPrefixOf_iff_prefix])
  | cons c t ih =>
      simp only [List.cons_append]
      rw [containsL]
      simp only [List.cons_append] at ih
      rw [ih]
      simp

theorem pyContains_of_parts (x pat y : String) :
    pyContains (x ++ pat ++ y) pat = true := by
  unfold pyContains
  rw [String.data_append, String.data_append]
  exact containsL_append x.data pat.data y.data

theorem splitOnCharL_no_sep (sep : Char) (a : List Char)
    (h : a.contains sep = false) : splitOnCharL sep a = [a] := by
  induction a with
  | nil => rfl
  | cons c t ih =>
      simp only [List.contains_cons, Bool.or_eq_false_iff, beq_eq_false_iff_ne] at h
      rw [splitOnCharL]
      rw [if_neg (by intro hc; exact h.1 hc.symm)]
      rw [ih h.2]

theorem splitOnCharL_append_sep (sep : Char) (a r : List Char)
    (h : a.contains sep = false) :
    splitOnCharL sep (a ++ sep :: r) = a :: splitOnCharL sep r := by
  induction a with
  | nil =>
      simp only [List.nil_append]
      rw [splitOnCharL]
      simp
  | cons c t ih =>
      simp only [List.contains_cons, Bool.or_eq_false_iff, beq_eq_false_iff_ne] at h
      simp only [List.cons_append]
      rw [splitOnCharL]
      rw [if_neg (by intro hc; exact h.1 hc.symm)]
      rw [ih h.2]

theorem pySplitChar_pyJoin (lines : List String)
    (h : ∀ l ∈ lines, l.data.contains '\n' = false) (hne : lines ≠ []) :
    pySplitChar (pyJoin "\n" lines) '\n' = lines := by
  induction lines with
  | nil => exact absurd rfl hne
  | cons x rest ih =>
      cases rest with
      | nil =>
          show (splitOnCharL '\n' x.data).map (fun l => String.mk l) = [x]
          rw [splitOnCharL_no_sep '\n' x.data (h x (by simp))]
          simp only [List.map]
      | cons y ys =>
          have hx : x.data.contains '\n' = false := h x (by simp)
          have hrest : ∀ l ∈ y :: ys, l.data.contains '\n' = false := by
            intro l hl
            exact h l (by simp [hl])
          have hdata :
              (x ++ "\n" ++ pyJoin "\n" (y :: ys)).data
                = x.data ++ '\n' :: (pyJoin "\n" (y :: ys)).data := by
            rw [String.data_append, String.data_append, List.append_assoc]
            rfl
          show pySplitChar (x ++ "\n" ++ pyJoin "\n" (y :: ys)) '\n' = x :: y :: ys
          unfold pySplitChar
          rw [hdata, splitOnCharL_append_sep '\n' x.data _ hx]
          simp only [List.map]
          have hx2 : String.mk x.data = x := by cases x; rfl
          rw [hx2]
          congr 1
          exact ih hrest (by simp)

theorem pdfPagesLoop_eq (ps : List PageOutcome) :
    ∀ acc : String,
      pdfPagesLoop acc ps = (acc ++ pagesTextBeforeExn ps, pagesExn ps) := by
  induction ps with
  | nil =>
      intro acc
      simp [pdfPagesLoop, pagesTextBeforeExn, pagesExn, String.append_empty]
  | cons p rest ih =>
      intro acc
      cases p with
      | exn =>
          simp [pdfPagesLoop, pagesTextBeforeExn, pagesExn, String.append_empty]
      | text s =>
          rw [pdfPagesLoop, ih (acc ++ s.getD "")]
          simp [pagesTextBeforeExn, pagesExn, String.append_assoc]

theorem data_isEmpty_false_of_ne {s : String} (h : s ≠ "") :
    s.data.isEmpty = false := by
  cases he : s.data.isEmpty
  · rfl
  · exact absurd (eq_empty_of_data_eq_nil (List.isEmpty_iff.mp he)) h

theorem chatStep_ok_state (s : SessionState) (q : String)
    (generate : String → String) :
    (chatStep s q (fun p => GenOutcome.ok (generate p))).state
      = { s with messages := s.messages ++
          [⟨"user", q⟩, ⟨"assistant", generate (qa_prompt s.text_content q)⟩] } := by
  rw [chatStep]
  simp [List.append_assoc]

theorem chatRun_eq (generate : String → String) :
    ∀ (qs : List String) (s : SessionState),
      chatRun generate s qs =
        { s with messages := s.messages ++ qs.flatMap (fun q =>
            [⟨"user", q⟩,
             ⟨"assistant", generate (qa_prompt s.text_content q)⟩]) }
  | [], s => by simp [chatRun]
  | q :: qs, s => by
      rw [chatRun, chatStep_ok_state, chatRun_eq generate qs]
      simp [List.append_assoc]

theorem flatMap_pair_length {α β : Type} (f g : α → β) (qs : List α) :
    (qs.flatMap (fun q => [f q, g q])).length = 2 * qs.length := by
  induction qs with
  | nil => rfl
  | cons q qs ih =>
      rw [List.flatMap_cons]
      simp only [List.length_append, List.length_cons, ih]
      simp
      omega

/-! ### Claim theorems -/

/-- Claim C9 (confirmed): an analyze action with no uploaded file is refused
with a warning, processes no file (so no extraction or generation call is
made), and leaves the entire session state unchanged. -/
theorem analyze_no_files_refused (s : SessionState) :
    analyzeDocument s [] = ⟨s, 0, true, false, false⟩ :=
  rfl

/-- Claim C3 (confirmed): every analyze action with at least one uploaded
file resets the cached Summary, cached Risk Analysis, and Chat Transcript
to empty at the moment it produces the new Document Text, whatever their
previous values were. -/
theorem analyze_resets_derived_state (s : SessionState)
    (files : List UploadedFile) (h : files ≠ []) :
    (analyzeDocument s files).state.summary = ""
      ∧ (analyzeDocument s files).state.risk_analysis = ""
      ∧ (analyzeDocument s files).state.messages = [] := by
  cases files with
  | nil => exact absurd rfl h
  | cons f fs =>
      rw [analyzeDocument]
      simp only [List.isEmpty_cons, Bool.false_eq_true, if_false]
      split
      · exact ⟨rfl, rfl, rfl⟩
      · exact ⟨rfl, rfl, rfl⟩

/-- Witness for C3 at a state full of stale results and one image upload. -/
theorem analyze_resets_derived_state_witness :
    (analyzeDocument
        ⟨"old text", "old summary", "old risks", [⟨"user", "hi"⟩]⟩
        [UploadedFile.image (OcrOutcome.ok "B")]).state.summary = ""
      ∧ (analyzeDocument
          ⟨"old text", "old summary", "old risks", [⟨"user", "hi"⟩]⟩
          [UploadedFile.image (OcrOutcome.ok "B")]).state.risk_analysis = ""
      ∧ (analyzeDocument
          ⟨"old text", "old summary", "old risks", [⟨"user", "hi"⟩]⟩
          [UploadedFile.image (OcrOutcome.ok "B")]).state.messages = [] :=
  analyze_resets_derived_state
    ⟨"old text", "old summary", "old risks", [⟨"user", "hi"⟩]⟩
    [UploadedFile.image (OcrOutcome.ok "B")]
    (List.cons_ne_nil _ _)

/-- Claim C2 (code_bug): analyzing two files that both fail extraction makes
Document Text the whitespace-only string between the two empty
contributions; the code reports the extraction error, yet the tab gate still
offers the downstream views, because the gate tests plain non-emptiness of
`text_content` while the error check tests the stripped text. The claim
(and the spec) say no downstream views are offered. -/
theorem whitespace_text_still_offers_tabs :
    (analyzeDocument initState
        [UploadedFile.image OcrOutcome.exn,
         UploadedFile.image OcrOutcome.exn]).errored = true
      ∧ (analyzeDocument initState
          [UploadedFile.image OcrOutcome.exn,
           UploadedFile.image OcrOutcome.exn]).state.text_content = "\n\n"
      ∧ pyStrip (analyzeDocument initState
          [UploadedFile.image OcrOutcome.exn,
           UploadedFile.image OcrOutcome.exn]).state.text_content = ""
      ∧ tabsOffered (analyzeDocument initState
          [UploadedFile.image OcrOutcome.exn,
           UploadedFile.image OcrOutcome.exn]).state = true := by
  refine ⟨by decide, by decide, by decide, by decide⟩

/-- Claim C10 (confirmed): when the generate call of a chat step raises, the
(user, message) entry has already been appended and no assistant entry is
added, so the step is not atomic: the transcript ends with an unanswered
user entry instead of being restored to its pre-step value. -/
theorem chat_step_not_atomic (s : SessionState) (q : String)
    (generate : String → GenOutcome)
    (h : generate (qa_prompt s.text_content q) = GenOutcome.exn) :
    (chatStep s q generate).raised = true
      ∧ (chatStep s q generate).state.messages
          = s.messages ++ [⟨"user", q⟩]
      ∧ (chatStep s q generate).state.messages ≠ s.messages := by
  refine ⟨?_, ?_, ?_⟩
  · rw [chatStep]
    simp only [h]
  · rw [chatStep]
    simp only [h]
  · rw [chatStep]
    simp only [h]
    intro heq
    have hlen := congrArg List.length heq
    simp at hlen

/-- Witness for C10 with a model that always raises. -/
theorem chat_step_not_atomic_witness :
    (chatStep ⟨"doc", "", "", []⟩ "question"
        (fun _ => GenOutcome.exn)).raised = true
      ∧ (chatStep ⟨"doc", "", "", []⟩ "question"
          (fun _ => GenOutcome.exn)).state.messages
          = ([] : List ChatMessage) ++ [⟨"user", "question"⟩]
      ∧ (chatStep ⟨"doc", "", "", []⟩ "question"
          (fun _ => GenOutcome.exn)).state.messages
          ≠ ([] : List ChatMessage) :=
  chat_step_not_atomic ⟨"doc", "", "", []⟩ "question"
    (fun _ => GenOutcome.exn) rfl

/-- Claim C8 (confirmed): an explain-clause click leaves Document Text,
Summary, Risk Analysis, and Chat Transcript unchanged, and with a non-empty
clause every click issues one fresh generate call on the explain prompt —
a repeated identical clause included. -/
theorem explain_clause_stateless (s : SessionState) (clause : String)
    (generate : String → String) :
    (explainClick s clause generate).state = s
      ∧ (clause ≠ "" →
          (explainClick s clause generate).prompts = [explain_prompt clause]
            ∧ (explainClick (explainClick s clause generate).state clause
                generate).prompts = [explain_prompt clause]) := by
  constructor
  · rw [explainClick]
    split
    · rfl
    · rfl
  · intro h
    have hne := data_isEmpty_false_of_ne h
    constructor
    · simp [explainClick, hne]
    · simp [explainClick, hne]

/-- Witness for C8 on a populated session and a concrete clause. -/
theorem explain_clause_stateless_witness :
    (explainClick ⟨"doc", "sum", "risk", []⟩ "indemnity clause"
        (fun _ => "explanation")).state = ⟨"doc", "sum", "risk", []⟩
      ∧ (explainClick ⟨"doc", "sum", "risk", []⟩ "indemnity clause"
          (fun _ => "explanation")).prompts
          = [explain_prompt "indemnity clause"]
      ∧ (explainClick
          (explainClick ⟨"doc", "sum", "risk", []⟩ "indemnity clause"
            (fun _ => "explanation")).state "indemnity clause"
          (fun _ => "explanation")).prompts
          = [explain_prompt "indemnity clause"] :=
  ⟨(explain_clause_stateless ⟨"doc", "sum", "risk", []⟩ "indemnity clause"
      (fun _ => "explanation")).1,
   ((explain_clause_stateless ⟨"doc", "sum", "risk", []⟩ "indemnity clause"
      (fun _ => "explanation")).2 (by decide)).1,
   ((explain_clause_stateless ⟨"doc", "sum", "risk", []⟩ "indemnity clause"
      (fun _ => "explanation")).2 (by decide)).2⟩

/-- Claim C1 (corrected), counterexample: one PDF extracting "A" plus one
image whose OCR call fails give Document Text "A\n\n" — the failed file
still contributes a blank-line separator — while the claim's join of only
the non-empty extractions is "A". -/
theorem blank_separator_counterexample :
    (analyzeDocument initState
        [UploadedFile.pdf (PdfFile.pages [PageOutcome.text (some "A")]),
         UploadedFile.image OcrOutcome.exn]).state.text_content = "A\n\n"
      ∧ documentTextPerClaim
          [UploadedFile.pdf (PdfFile.pages [PageOutcome.text (some "A")]),
           UploadedFile.image OcrOutcome.exn] = "A"
      ∧ (analyzeDocument initState
          [UploadedFile.pdf (PdfFile.pages [PageOutcome.text (some "A")]),
           UploadedFile.image OcrOutcome.exn]).state.text_content
          ≠ documentTextPerClaim
            [UploadedFile.pdf (PdfFile.pages [PageOutcome.text (some "A")]),
             UploadedFile.image OcrOutcome.exn] := by
  refine ⟨by decide, by decide, by decide⟩

/-- Claim C1 (corrected): for every analyze action on a non-empty list of
uploaded files, Document Text equals ALL per-file extraction results — empty
results included, each contributing its blank-line separators — joined by
the blank-line separator in upload order, and it is non-empty whenever at
least one per-file result is non-empty. -/
theorem analyze_text_joins_all (s : SessionState)
    (files : List UploadedFile) (h : files ≠ []) :
    (analyzeDocument s files).state.text_content
        = pyJoin "\n\n" (files.map (fun f => (extractFile f).1))
      ∧ ∀ f ∈ files, (extractFile f).1 ≠ "" →
          (analyzeDocument s files).state.text_content ≠ "" := by
  have htext : (analyzeDocument s files).state.text_content
      = pyJoin "\n\n" (files.map (fun f => (extractFile f).1)) := by
    cases files with
    | nil => exact absurd rfl h
    | cons f fs =>
        rw [analyzeDocument]
        simp only [List.isEmpty_cons, Bool.false_eq_true, if_false]
        split
        · rfl
        · rfl
  refine ⟨htext, ?_⟩
  intro f hf hfne
  rw [htext]
  exact pyJoin_ne_empty_of_mem "\n\n" (extractFile f).1 _
    (List.mem_map_of_mem (fun f => (extractFile f).1) hf) hfne

/-- Witness for C1 (amended) on one successful image and one failed image. -/
theorem analyze_text_joins_all_witness :
    (analyzeDocument initState
        [UploadedFile.image (OcrOutcome.ok "A"),
         UploadedFile.image OcrOutcome.exn]).state.text_content
        = pyJoin "\n\n"
            ([UploadedFile.image (OcrOutcome.ok "A"),
              UploadedFile.image OcrOutcome.exn].map
              (fun f => (extractFile f).1))
      ∧ (analyzeDocument initState
          [UploadedFile.image (OcrOutcome.ok "A"),
           UploadedFile.image OcrOutcome.exn]).state.text_content ≠ "" :=
  ⟨(analyze_text_joins_all initState
      [UploadedFile.image (OcrOutcome.ok "A"),
       UploadedFile.image OcrOutcome.exn] (List.cons_ne_nil _ _)).1,
   (analyze_text_joins_all initState
      [UploadedFile.image (OcrOutcome.ok "A"),
       UploadedFile.image OcrOutcome.exn] (List.cons_ne_nil _ _)).2
      (UploadedFile.image (OcrOutcome.ok "A")) (by decide) (by decide)⟩

/-- Claim C4 (corrected), counterexample: if the client returns the empty
string, the empty result is indistinguishable from "not yet computed", so
rendering the summarize view twice in succession issues two generate calls,
not exactly one. -/
theorem empty_completion_recomputes :
    ((renderSummaryTab ⟨"doc", "", "", []⟩ (fun _ => "")).prompts).length = 1
      ∧ ((renderSummaryTab
            (renderSummaryTab ⟨"doc", "", "", []⟩ (fun _ => "")).state
            (fun _ => "")).prompts).length = 1 := by
  refine ⟨by decide, by decide⟩

/-- Claim C4 (corrected): provided the completion string the client returns
is non-empty, the first render of the summarize (respectively risk-analysis)
view computes and caches it with exactly one generate call, and the next
render of the same view issues no call and leaves the state unchanged. -/
theorem memoized_render_single_call (s : SessionState)
    (generate : String → String)
    (hsum : s.summary = "") (hrisk : s.risk_analysis = "")
    (hg1 : generate (summary_prompt s.text_content) ≠ "")
    (hg2 : generate (risk_prompt s.text_content) ≠ "") :
    (renderSummaryTab s generate).prompts = [summary_prompt s.text_content]
      ∧ (renderSummaryTab s generate).state.summary
          = generate (summary_prompt s.text_content)
      ∧ (renderSummaryTab (renderSummaryTab s generate).state
          generate).prompts = []
      ∧ (renderSummaryTab (renderSummaryTab s generate).state generate).state
          = (renderSummaryTab s generate).state
      ∧ (renderRiskTab s generate).prompts = [risk_prompt s.text_content]
      ∧ (renderRiskTab s generate).state.risk_analysis
          = generate (risk_prompt s.text_content)
      ∧ (renderRiskTab (renderRiskTab s generate).state generate).prompts = []
      ∧ (renderRiskTab (renderRiskTab s generate).state generate).state
          = (renderRiskTab s generate).state := by
  have e1 : renderSummaryTab s generate
      = ⟨{ s with summary := generate (summary_prompt s.text_content) },
         [summary_prompt s.text_content]⟩ := by
    rw [renderSummaryTab]
    simp [hsum]
  have e2 : renderSummaryTab
      { s with summary := generate (summary_prompt s.text_content) } generate
      = ⟨{ s with summary := generate (summary_prompt s.text_content) },
         []⟩ := by
    rw [renderSummaryTab]
    simp [data_isEmpty_false_of_ne hg1]
  have e3 : renderRiskTab s generate
      = ⟨{ s with risk_analysis := generate (risk_prompt s.text_content) },
         [risk_prompt s.text_content]⟩ := by
    rw [renderRiskTab]
    simp [hrisk]
  have e4 : renderRiskTab
      { s with risk_analysis := generate (risk_prompt s.text_content) }
      generate
      = ⟨{ s with risk_analysis := generate (risk_prompt s.text_content) },
         []⟩ := by
    rw [renderRiskTab]
    simp [data_isEmpty_false_of_ne hg2]
  rw [e1, e3]
  exact ⟨rfl, rfl, by rw [e2], by rw [e2], rfl, rfl, by rw [e4], by rw [e4]⟩

/-- Witness for C4 (amended) with a model returning a non-empty completion. -/
theorem memoized_render_single_call_witness :
    (renderSummaryTab ⟨"doc", "", "", []⟩ (fun _ => "ok")).prompts
        = [summary_prompt "doc"]
      ∧ (renderSummaryTab ⟨"doc", "", "", []⟩ (fun _ => "ok")).state.summary
          = "ok"
      ∧ (renderSummaryTab
          (renderSummaryTab ⟨"doc", "", "", []⟩ (fun _ => "ok")).state
          (fun _ => "ok")).prompts = []
      ∧ (renderSummaryTab
          (renderSummaryTab ⟨"doc", "", "", []⟩ (fun _ => "ok")).state
          (fun _ => "ok")).state
          = (renderSummaryTab ⟨"doc", "", "", []⟩ (fun _ => "ok")).state
      ∧ (renderRiskTab ⟨"doc", "", "", []⟩ (fun _ => "ok")).prompts
          = [risk_prompt "doc"]
      ∧ (renderRiskTab ⟨"doc", "", "", []⟩
          (fun _ => "ok")).state.risk_analysis = "ok"
      ∧ (renderRiskTab
          (renderRiskTab ⟨"doc", "", "", []⟩ (fun _ => "ok")).state
          (fun _ => "ok")).prompts = []
      ∧ (renderRiskTab
          (renderRiskTab ⟨"doc", "", "", []⟩ (fun _ => "ok")).state
          (fun _ => "ok")).state
          = (renderRiskTab ⟨"doc", "", "", []⟩ (fun _ => "ok")).state :=
  memoized_render_single_call ⟨"doc", "", "", []⟩ (fun _ => "ok")
    rfl rfl (by decide) (by decide)

/-- Claim C6 (corrected), counterexample: a PDF whose first page extracts
"A" and whose second page raises is a failing extraction (the error is
caught and reported), yet it contributes "A" — the text accumulated before
the failure — not the empty string. -/
theorem partial_pdf_contribution :
    extract_text_from_pdf
        (PdfFile.pages [PageOutcome.text (some "A"), PageOutcome.exn])
        = ("A", true)
      ∧ (extract_text_from_pdf
          (PdfFile.pages [PageOutcome.text (some "A"), PageOutcome.exn])).1
          ≠ "" := by
  refine ⟨by decide, by decide⟩

/-- Claim C6 (corrected): every per-file failure is caught inside the
extractor and reported to the user, and the batch continues over every
file; an OCR failure or an unreadable PDF contributes the empty string,
while a PDF failing midway contributes the text of the pages read before
the failure (not necessarily empty). -/
theorem extraction_failures_degrade (s : SessionState)
    (files : List UploadedFile) (h : files ≠ [])
    (ps : List PageOutcome) :
    extract_text_from_image OcrOutcome.exn = ("", true)
      ∧ extract_text_from_pdf PdfFile.unreadable = ("", true)
      ∧ extract_text_from_pdf (PdfFile.pages ps)
          = (pagesTextBeforeExn ps, pagesExn ps)
      ∧ (analyzeDocument s files).filesProcessed = files.length
      ∧ (analyzeDocument s files).state.text_content
          = pyJoin "\n\n" (files.map (fun f => (extractFile f).1)) := by
  refine ⟨rfl, rfl, ?_, ?_, ?_⟩
  · rw [extract_text_from_pdf, pdfPagesLoop_eq]
    exact congrArg (fun t => (t, pagesExn ps))
      (String.ext (List.nil_append (pagesTextBeforeExn ps).data))
  · cases files with
    | nil => exact absurd rfl h
    | cons f fs =>
        rw [analyzeDocument]
        simp only [List.isEmpty_cons, Bool.false_eq_true, if_false]
        split
        · rfl
        · rfl
  · cases files with
    | nil => exact absurd rfl h
    | cons f fs =>
        rw [analyzeDocument]
        simp only [List.isEmpty_cons, Bool.false_eq_true, if_false]
        split
        · rfl
        · rfl

/-- Witness for C6 on a mixed batch of one good image and one bad PDF. -/
theorem extraction_failures_degrade_witness :
    extract_text_from_image OcrOutcome.exn = ("", true)
      ∧ extract_text_from_pdf PdfFile.unreadable = ("", true)
      ∧ extract_text_from_pdf
          (PdfFile.pages [PageOutcome.text (some "A"), PageOutcome.exn])
          = (pagesTextBeforeExn
              [PageOutcome.text (some "A"), PageOutcome.exn],
             pagesExn [PageOutcome.text (some "A"), PageOutcome.exn])
      ∧ (analyzeDocument initState
          [UploadedFile.image (OcrOutcome.ok "B"),
           UploadedFile.pdf PdfFile.unreadable]).filesProcessed
          = [UploadedFile.image (OcrOutcome.ok "B"),
             UploadedFile.pdf PdfFile.unreadable].length
      ∧ (analyzeDocument initState
          [UploadedFile.image (OcrOutcome.ok "B"),
           UploadedFile.pdf PdfFile.unreadable]).state.text_content
          = pyJoin "\n\n"
              ([UploadedFile.image (OcrOutcome.ok "B"),
                UploadedFile.pdf PdfFile.unreadable].map
                (fun f => (extractFile f).1)) :=
  extraction_failures_degrade initState
    [UploadedFile.image (OcrOutcome.ok "B"),
     UploadedFile.pdf PdfFile.unreadable]
    (List.cons_ne_nil _ _)
    [PageOutcome.text (some "A"), PageOutcome.exn]

/-- Claim C7 (confirmed): a submitted chat message appends the (user,
message) entry, issues exactly one generate call whose prompt contains the
current Document Text and the literal question, then appends the
(assistant, reply) entry; and n successfully answered questions from a
fresh transcript give exactly the 2n entries user/assistant alternating in
submission order, earlier entries preserved unchanged. -/
theorem chat_step_appends (s : SessionState) (q reply : String)
    (generate : String → GenOutcome)
    (hok : generate (qa_prompt s.text_content q) = GenOutcome.ok reply) :
    (chatStep s q generate).state
        = { s with messages := s.messages
            ++ [⟨"user", q⟩, ⟨"assistant", reply⟩] }
      ∧ (chatStep s q generate).prompts = [qa_prompt s.text_content q]
      ∧ pyContains (qa_prompt s.text_content q) s.text_content = true
      ∧ pyContains (qa_prompt s.text_content q) q = true
      ∧ ∀ (generate2 : String → String) (qs : List String)
          (s0 : SessionState), s0.messages = [] →
          (chatRun generate2 s0 qs).messages
              = qs.flatMap (fun q2 =>
                  [⟨"user", q2⟩,
                   ⟨"assistant", generate2 (qa_prompt s0.text_content q2)⟩])
            ∧ (chatRun generate2 s0 qs).messages.length = 2 * qs.length := by
  refine ⟨?_, ?_, ?_, ?_, ?_⟩
  · rw [chatStep]
    simp only [hok]
    simp [List.append_assoc]
  · rw [chatStep]
    simp only [hok]
  · have hsplit :
        qa_prompt s.text_content q
          = "Answer the user\x27s question based ONLY on the following document. If the answer isn\x27t there, say so.\nDOCUMENT: "
            ++ s.text_content ++ ("\nQUESTION: " ++ q) := by
      rw [qa_prompt, String.append_assoc]
    rw [hsplit]
    exact pyContains_of_parts _ s.text_content _
  · have hsplit :
        qa_prompt s.text_content q
          = ("Answer the user\x27s question based ONLY on the following document. If the answer isn\x27t there, say so.\nDOCUMENT: "
              ++ s.text_content ++ "\nQUESTION: ") ++ q ++ "" := by
      rw [qa_prompt, String.append_empty]
    rw [hsplit]
    exact pyContains_of_parts _ q ""
  · intro generate2 qs s0 hs0
    have hrun := chatRun_eq generate2 qs s0
    rw [hrun]
    simp only [hs0, List.nil_append]
    exact ⟨trivial,
      flatMap_pair_length
        (fun q2 => (⟨"user", q2⟩ : ChatMessage))
        (fun q2 =>
          (⟨"assistant", generate2 (qa_prompt s0.text_content q2)⟩ :
            ChatMessage)) qs⟩

/-- Witness for C7: one answered question on a concrete document, then a
two-question run from a fresh transcript. -/
theorem chat_step_appends_witness :
    (chatStep ⟨"the contract", "", "", []⟩ "who pays"
        (fun _ => GenOutcome.ok "the tenant")).state
        = { (⟨"the contract", "", "", []⟩ : SessionState) with
            messages := ([] : List ChatMessage)
              ++ [⟨"user", "who pays"⟩, ⟨"assistant", "the tenant"⟩] }
      ∧ (chatStep ⟨"the contract", "", "", []⟩ "who pays"
          (fun _ => GenOutcome.ok "the tenant")).prompts
          = [qa_prompt "the contract" "who pays"]
      ∧ pyContains (qa_prompt "the contract" "who pays") "the contract"
          = true
      ∧ pyContains (qa_prompt "the contract" "who pays") "who pays" = true
      ∧ ((chatRun (fun _ => "reply") ⟨"the contract", "", "", []⟩
            ["q1", "q2"]).messages
            = ["q1", "q2"].flatMap (fun q2 =>
                [⟨"user", q2⟩,
                 ⟨"assistant",
                  (fun _ => "reply") (qa_prompt "the contract" q2)⟩])
          ∧ (chatRun (fun _ => "reply") ⟨"the contract", "", "", []⟩
              ["q1", "q2"]).messages.length = 2 * (["q1", "q2"] : List String).length) :=
  ⟨(chat_step_appends ⟨"the contract", "", "", []⟩ "who pays" "the tenant"
      (fun _ => GenOutcome.ok "the tenant") rfl).1,
   (chat_step_appends ⟨"the contract", "", "", []⟩ "who pays" "the tenant"
      (fun _ => GenOutcome.ok "the tenant") rfl).2.1,
   (chat_step_appends ⟨"the contract", "", "", []⟩ "who pays" "the tenant"
      (fun _ => GenOutcome.ok "the tenant") rfl).2.2.1,
   (chat_step_appends ⟨"the contract", "", "", []⟩ "who pays" "the tenant"
      (fun _ => GenOutcome.ok "the tenant") rfl).2.2.2.1,
   (chat_step_appends ⟨"the contract", "", "", []⟩ "who pays" "the tenant"
      (fun _ => GenOutcome.ok "the tenant") rfl).2.2.2.2
      (fun _ => "reply") ["q1", "q2"] ⟨"the contract", "", "", []⟩ rfl⟩

/-- Claim C5 (corrected), counterexample: on the line
`Severity: High - A Severity: High - B` the code's `str.replace` rewrites
BOTH occurrences of the marker, while the claim's strip-the-prefix rule
rewrites only the leading one; the two renderers disagree. -/
theorem risk_marker_not_prefix_only :
    renderRiskLines "Severity: High - A Severity: High - B"
        = [RiskLine.high "**High Risk:** A **High Risk:** B"]
      ∧ renderRiskLinesClaim "Severity: High - A Severity: High - B"
        = [RiskLine.high "**High Risk:** A Severity: High - B"]
      ∧ renderRiskLines "Severity: High - A Severity: High - B"
          ≠ renderRiskLinesClaim "Severity: High - A Severity: High - B" := by
  refine ⟨by decide, by decide, by decide⟩

/-- Claim C5 (corrected): the renderer splits the Risk Analysis string at
newlines, skips lines that strip to empty, classifies each remaining line by
substring match in priority order High, Medium, Low, rewrites EVERY
occurrence of the matched literal `Severity: <Level> -` marker in the line
with the bolded label (Python `str.replace`, not only a leading prefix),
renders lines matching no marker verbatim, and preserves line order. -/
theorem risk_renderer_characterized :
    (∀ lines : List String,
        (∀ l ∈ lines, l.data.contains '\n' = false) →
        renderRiskLines (pyJoin "\n" lines)
          = lines.filterMap renderRiskLine)
  ∧ (∀ raw : String, (pyStrip raw).data.isEmpty = true →
        renderRiskLine raw = none)
  ∧ (∀ raw : String, (pyStrip raw).data.isEmpty = false →
        pyContains (pyStrip raw) "Severity: High" = true →
        renderRiskLine raw
          = some (RiskLine.high
              (pyReplace (pyStrip raw) "Severity: High -" "**High Risk:**")))
  ∧ (∀ raw : String, (pyStrip raw).data.isEmpty = false →
        pyContains (pyStrip raw) "Severity: High" = false →
        pyContains (pyStrip raw) "Severity: Medium" = true →
        renderRiskLine raw
          = some (RiskLine.medium
              (pyReplace (pyStrip raw) "Severity: Medium -"
                "**Medium Risk:**")))
  ∧ (∀ raw : String, (pyStrip raw).data.isEmpty = false →
        pyContains (pyStrip raw) "Severity: High" = false →
        pyContains (pyStrip raw) "Severity: Medium" = false →
        pyContains (pyStrip raw) "Severity: Low" = true →
        renderRiskLine raw
          = some (RiskLine.low
              (pyReplace (pyStrip raw) "Severity: Low -" "**Low Risk:**")))
  ∧ (∀ raw : String, (pyStrip raw).data.isEmpty = false →
        pyContains (pyStrip raw) "Severity: High" = false →
        pyContains (pyStrip raw) "Severity: Medium" = false →
        pyContains (pyStrip raw) "Severity: Low" = false →
        renderRiskLine raw = some (RiskLine.plain (pyStrip raw))) := by
  refine ⟨?_, ?_, ?_, ?_, ?_, ?_⟩
  · intro lines hl
    cases lines with
    | nil => decide
    | cons x rest =>
        rw [renderRiskLines, pySplitChar_pyJoin (x :: rest) hl (by simp)]
  · intro raw h1
    simp [renderRiskLine, h1]
  · intro raw h1 h2
    simp [renderRiskLine, h1, h2]
  · intro raw h1 h2 h3
    simp [renderRiskLine, h1, h2, h3]
  · intro raw h1 h2 h3 h4
    simp [renderRiskLine, h1, h2, h3, h4]
  · intro raw h1 h2 h3 h4
    simp [renderRiskLine, h1, h2, h3, h4]

/-- Witness for C5 (amended) on the spec's example lines plus a blank line
and one line per severity. -/
theorem risk_renderer_characterized_witness :
    renderRiskLines
        (pyJoin "\n"
          ["Severity: High - A", "Severity: Medium - B",
           "not a severity line"])
        = ["Severity: High - A", "Severity: Medium - B",
           "not a severity line"].filterMap renderRiskLine
      ∧ renderRiskLine "   " = none
      ∧ renderRiskLine "Severity: High - A"
          = some (RiskLine.high
              (pyReplace (pyStrip "Severity: High - A") "Severity: High -"
                "**High Risk:**"))
      ∧ renderRiskLine "Severity: Medium - B"
          = some (RiskLine.medium
              (pyReplace (pyStrip "Severity: Medium - B")
                "Severity: Medium -" "**Medium Risk:**"))
      ∧ renderRiskLine "Severity: Low - C"
          = some (RiskLine.low
              (pyReplace (pyStrip "Severity: Low - C") "Severity: Low -"
                "**Low Risk:**"))
      ∧ renderRiskLine "not a severity line"
          = some (RiskLine.plain (pyStrip "not a severity line")) :=
  ⟨risk_renderer_characterized.1
      ["Severity: High - A", "Severity: Medium - B", "not a severity line"]
      (by decide),
   risk_renderer_characterized.2.1 "   " (by decide),
   risk_renderer_characterized.2.2.1 "Severity: High - A" (by decide)
      (by decide),
   risk_renderer_characterized.2.2.2.1 "Severity: Medium - B" (by decide)
      (by decide) (by decide),
   risk_renderer_characterized.2.2.2.2.1 "Severity: Low - C" (by decide)
      (by decide) (by decide) (by decide),
   risk_renderer_characterized.2.2.2.2.2 "not a severity line" (by decide)
      (by decide) (by decide) (by decide)⟩

end Demystifier
